import Mathlib

/-!
Verification development for the dm2xcod example CLI script
(`examples/python_example/demo.py`) and the document-conversion engine
design it demonstrates.

The script is embedded shallowly: every external effect (the import of the
`dm2xcod` module, `sys.argv`, file reads, the external `convert_docx`
function, file writes) is a field of an `Env` record, and `runMain`
computes the observable `Outcome` of one invocation: the lines printed to
stdout, the read/convert/write calls issued, the files successfully
written, and the process exit status.
-/

namespace Dm2xcod

/-- A single quote character, kept out of string literals. -/
def sq : String := String.singleton (Char.ofNat 39)

/-- Message printed when the `dm2xcod` module fails to import
(demo.py line 14). -/
def notInstalledMsg : String :=
  "❌ dm2xcod not installed. Install with: pip install dm2xcod"

/-- Usage message (demo.py line 18), parameterised by `sys.argv[0]`. -/
def usageMsg (argv0 : String) : String :=
  "Usage: " ++ argv0 ++ " <input.docx> [output.md]"

/-- Progress message printed before the input file is opened
(demo.py line 26). -/
def readingMsg (inp : String) : String :=
  "Reading " ++ sq ++ inp ++ sq ++ " as bytes..."

/-- Error message printed by the catch-all handler (demo.py line 40). -/
def errorMsg (e : String) : String :=
  "❌ Error: " ++ e

/-- Success message printed after writing the output file
(demo.py line 35). -/
def convertedMsg (inp out : String) : String :=
  "✅ Converted " ++ sq ++ inp ++ sq ++ " to " ++ sq ++ out ++ sq

/-- The external world of one invocation of demo.py: whether `import
dm2xcod` succeeds, the command-line arguments (argv[0] is the script
name, as in Python), and the behaviour of the three effects the script
performs inside its `try` block.  Each effect either succeeds or raises
an exception carried as a message string. -/
structure Env where
  importOk : Bool
  argv : List String
  readFile : String → Except String (List Nat)
  convert_docx : List Nat → Except String String
  writeFile : String → String → Except String Unit

/-- Everything observable about one invocation of demo.py: the lines
printed to stdout (one list element per `print` call), the file paths
opened for reading, the byte buffers passed to `convert_docx`, the
(path, content) pairs the script attempted to write, the (path, content)
pairs written successfully, and the exit status. -/
structure Outcome where
  stdout : List String
  readCalls : List String
  convertCalls : List (List Nat)
  writeCalls : List (String × String)
  written : List (String × String)
  exitCode : Nat
deriving Repr, DecidableEq

/-- Shallow embedding of `main` in demo.py.  Mirrors the source line by
line: the import guard, the argv-length guard, `output_file =
sys.argv[2] if len(sys.argv) > 2 else None`, the `try` block (progress
print, read, convert, then either write-to-file or print), and the
catch-all `except` printing `❌ Error: e` and exiting 1.  Note the
Python `if output_file:` truthiness test: an empty-string output path is
falsy and takes the stdout branch. -/
def runMain (env : Env) : Outcome :=
  if env.importOk = false then
    { stdout := [notInstalledMsg], readCalls := [], convertCalls := [],
      writeCalls := [], written := [], exitCode := 1 }
  else if env.argv.length < 2 then
    { stdout := [usageMsg (env.argv.headD "")], readCalls := [],
      convertCalls := [], writeCalls := [], written := [], exitCode := 1 }
  else
    let input_file := env.argv.getD 1 ""
    let output_file : Option String :=
      if 2 < env.argv.length then some (env.argv.getD 2 "") else none
    match env.readFile input_file with
    | .error e =>
      { stdout := [readingMsg input_file, errorMsg e],
        readCalls := [input_file], convertCalls := [],
        writeCalls := [], written := [], exitCode := 1 }
    | .ok data =>
      match env.convert_docx data with
      | .error e =>
        { stdout := [readingMsg input_file, errorMsg e],
          readCalls := [input_file], convertCalls := [data],
          writeCalls := [], written := [], exitCode := 1 }
      | .ok markdown =>
        match output_file with
        | some out =>
          if out = "" then
            { stdout := [readingMsg input_file, markdown],
              readCalls := [input_file], convertCalls := [data],
              writeCalls := [], written := [], exitCode := 0 }
          else
            match env.writeFile out markdown with
            | .error e =>
              { stdout := [readingMsg input_file, errorMsg e],
                readCalls := [input_file], convertCalls := [data],
                writeCalls := [(out, markdown)], written := [],
                exitCode := 1 }
            | .ok _ =>
              { stdout := [readingMsg input_file,
                           convertedMsg input_file out],
                readCalls := [input_file], convertCalls := [data],
                writeCalls := [(out, markdown)],
                written := [(out, markdown)], exitCode := 0 }
        | none =>
          { stdout := [readingMsg input_file, markdown],
            readCalls := [input_file], convertCalls := [data],
            writeCalls := [], written := [], exitCode := 0 }

/-!
Style/Format Resolver (spec §3 StyleDefinition, §4.3, §7).  The engine
code is not part of the provided source, so the resolver is modelled
from the specification text.
-/

/-- Modelled from the spec: §3 "StyleDefinition: identifier, human name,
type (paragraph/character/table), optional parent identifier (style
inheritance chain), set of formatting attributes".  The engine source is
not provided. -/
inductive StyleType where
  | paragraph
  | character
  | table
deriving Repr, DecidableEq

/-- Modelled from the spec: §3 "set of formatting attributes (bold,
italic, font size, outline/heading level)".  A `none` field means the
style does not set that attribute, so an ancestor value shows through. -/
structure FormatAttrs where
  bold : Option Bool := none
  italic : Option Bool := none
  fontSize : Option Nat := none
  headingLevel : Option Nat := none
deriving Repr, DecidableEq

/-- Modelled from the spec: §4.3 "child overrides ancestor" — a child
attribute that is set wins over the ancestor value. -/
def FormatAttrs.overrides (child ancestor : FormatAttrs) : FormatAttrs where
  bold := child.bold.orElse fun _ => ancestor.bold
  italic := child.italic.orElse fun _ => ancestor.italic
  fontSize := child.fontSize.orElse fun _ => ancestor.fontSize
  headingLevel := child.headingLevel.orElse fun _ => ancestor.headingLevel

/-- Modelled from the spec: §3 "StyleDefinition".  The engine source is
not provided. -/
structure StyleDefinition where
  id : String
  name : String
  styleType : StyleType
  parent : Option String
  attrs : FormatAttrs
deriving Repr, DecidableEq

/-- Modelled from the spec: §7 resolver errors.  `CyclicStyle` carries
the offending identifier ("surfaced with offending identifier"). -/
inductive ResolveError where
  | CyclicStyle (id : String)
deriving Repr, DecidableEq

/-- The style table: an identifier-keyed association list of style
definitions (spec §3: styles are held in a read-only table). -/
def StyleTable := List (String × StyleDefinition)

/-- Look a style up by identifier in the table. -/
def findStyle : StyleTable → String → Option StyleDefinition
  | [], _ => none
  | (k, v) :: rest, sid => if k = sid then some v else findStyle rest sid

/-- One step of the parent chain: the parent identifier recorded for
`sid`, or `none` when `sid` is absent or a root style. -/
def parentStep (tbl : StyleTable) (sid : String) : Option String :=
  match findStyle tbl sid with
  | some sd => sd.parent
  | none => none

/-- An identifier is a key of the table iff `findStyle` finds it. -/
theorem mem_keys_of_findStyle {tbl : StyleTable} {sid : String}
    {sd : StyleDefinition} (h : findStyle tbl sid = some sd) :
    sid ∈ tbl.map Prod.fst := by
  induction tbl with
  | nil => simp [findStyle] at h
  | cons kv rest ih =>
    obtain ⟨k, v⟩ := kv
    by_cases hk : k = sid
    · subst hk; simp
    · simp only [findStyle, if_neg hk] at h
      simpa using Or.inr (ih h)

/-- A filter with a stronger predicate keeps at most as many elements. -/
theorem filter_length_le {α : Type} {p q : α → Bool}
    (h : ∀ x, q x = true → p x = true) :
    ∀ l : List α, (l.filter q).length ≤ (l.filter p).length := by
  intro l
  induction l with
  | nil => simp
  | cons a l ih =>
    by_cases hq : q a = true
    · simp [List.filter_cons, hq, h a hq]
      omega
    · by_cases hp : p a = true
      · simp [List.filter_cons, hq, hp]
        omega
      · simp [List.filter_cons, hq, hp]
        omega

/-- A filter with a strictly stronger predicate — one that drops a
member the weaker predicate keeps — keeps strictly fewer elements. -/
theorem filter_length_lt {α : Type} {p q : α → Bool}
    (h : ∀ x, q x = true → p x = true) {a : α} {l : List α}
    (ha : a ∈ l) (hp : p a = true) (hq : q a = false) :
    (l.filter q).length < (l.filter p).length := by
  induction l with
  | nil => cases ha
  | cons b l ih =>
    rcases List.mem_cons.mp ha with hb | hb
    · subst hb
      have hle := filter_length_le h l
      simp [List.filter_cons, hp, hq]
      omega
    · have hlt := ih hb
      by_cases hqb : q b = true
      · simp [List.filter_cons, hqb, h b hqb]
        omega
      · by_cases hpb : p b = true
        · simp [List.filter_cons, hqb, hpb]
          omega
        · simp [List.filter_cons, hqb, hpb]
          omega

/-- Modelled from the spec: §4.3 "walks the style-inheritance chain
(child overrides ancestor ...)  Cycle detection: maintain a visited-set
per resolution walk; on revisit, fail with `ResolveError::CyclicStyle`
naming the offending identifier — never infinite-loop", together with
§7's degrade policy for missing references (a missing style resolves to
no attributes rather than failing).  The engine source is not
provided. -/
def resolveStyle (tbl : StyleTable) (visited : List String)
    (sid : String) : Except ResolveError FormatAttrs :=
  if hv : sid ∈ visited then
    .error (.CyclicStyle sid)
  else
    match hf : findStyle tbl sid with
    | none => .ok {}
    | some sd =>
      match sd.parent with
      | none => .ok sd.attrs
      | some p =>
        match resolveStyle tbl (sid :: visited) p with
        | .error e => .error e
        | .ok ancestor => .ok (sd.attrs.overrides ancestor)
termination_by
  ((tbl.map Prod.fst).filter (fun k => decide (k ∉ visited))).length
decreasing_by
  exact filter_length_lt
    (by intro x hx; simp only [decide_eq_true_eq, List.mem_cons,
          not_or] at hx ⊢; exact hx.2)
    (mem_keys_of_findStyle hf)
    (by simpa using hv)
    (by simp)

/-- A revisited identifier fails the walk with `CyclicStyle`. -/
theorem resolveStyle_visited (tbl : StyleTable) (visited : List String)
    (sid : String) (h : sid ∈ visited) :
    resolveStyle tbl visited sid = .error (.CyclicStyle sid) := by
  rw [resolveStyle]
  rw [dif_pos h]

/-- An unvisited style with a parent resolves by first resolving the
parent with the identifier added to the visited set. -/
theorem resolveStyle_parent (tbl : StyleTable) (visited : List String)
    (sid : String) (sd : StyleDefinition) (p : String)
    (h1 : ¬ sid ∈ visited) (h2 : findStyle tbl sid = some sd)
    (h3 : sd.parent = some p) :
    resolveStyle tbl visited sid =
      match resolveStyle tbl (sid :: visited) p with
      | .error e => .error e
      | .ok ancestor => .ok (sd.attrs.overrides ancestor) := by
  rw [resolveStyle]
  rw [dif_neg h1]
  split
  · next heq => rw [h2] at heq; cases heq
  · next sd2 heq =>
    rw [h2] at heq
    injection heq with heq
    subst heq
    rw [h3]

/-- `x`'s style definition exists and names `y` as its parent: one edge
of the style-inheritance graph (spec §3). -/
def parentLinked (tbl : StyleTable) (x y : String) : Prop :=
  parentStep tbl x = some y

/-- Unpack an inheritance edge into the underlying style definition. -/
theorem parentLinked_elim {tbl : StyleTable} {x y : String}
    (h : parentLinked tbl x y) :
    ∃ sd, findStyle tbl x = some sd ∧ sd.parent = some y := by
  unfold parentLinked parentStep at h
  cases hf : findStyle tbl x with
  | none => rw [hf] at h; cases h
  | some sd => rw [hf] at h; exact ⟨sd, rfl, h⟩

/-- Walking the tail of an inheritance cycle: if `a` is already in the
visited set, the identifiers still to be walked (`sid :: rest`) are
fresh and distinct, and the parent chain runs from `sid` through `rest`
back to `a`, then the walk ends in `CyclicStyle a`. -/
theorem resolveStyle_cycle_walk (tbl : StyleTable) (a : String) :
    ∀ (rest : List String) (sid : String) (visited : List String),
      a ∈ visited →
      (∀ x ∈ sid :: rest, x ∉ visited) →
      (sid :: rest).Nodup →
      List.Chain (parentLinked tbl) sid (rest ++ [a]) →
      resolveStyle tbl visited sid = .error (.CyclicStyle a) := by
  intro rest
  induction rest with
  | nil =>
    intro sid visited hav hdisj hnd hch
    rw [List.nil_append] at hch
    obtain ⟨hstep, -⟩ := List.chain_cons.mp hch
    obtain ⟨sd, hf, hp⟩ := parentLinked_elim hstep
    have hsid : ¬ sid ∈ visited := hdisj sid (by simp)
    rw [resolveStyle_parent tbl visited sid sd a hsid hf hp]
    rw [resolveStyle_visited tbl (sid :: visited) a (by simp [hav])]
  | cons x rest ih =>
    intro sid visited hav hdisj hnd hch
    rw [List.cons_append] at hch
    obtain ⟨hstep, hch2⟩ := List.chain_cons.mp hch
    obtain ⟨sd, hf, hp⟩ := parentLinked_elim hstep
    have hsid : ¬ sid ∈ visited := hdisj sid (by simp)
    rw [resolveStyle_parent tbl visited sid sd x hsid hf hp]
    have hsid2 : sid ∉ x :: rest := by
      rcases List.nodup_cons.mp hnd with ⟨hs, -⟩
      exact hs
    rw [ih x (sid :: visited) (by simp [hav]) ?_ ?_ hch2]
    · intro y hy
      simp only [List.mem_cons, not_or]
      refine ⟨fun hya => ?_, hdisj y (List.mem_cons_of_mem sid hy)⟩
      exact hsid2 (hya ▸ hy)
    · exact (List.nodup_cons.mp hnd).2

/-!
Claim theorems.
-/

/-- Claim C7: for every style table containing an inheritance cycle —
given as a list of distinct identifiers `a :: rest` whose parent chain
runs from `a` through `rest` and back to `a` (the spec example is
`A` → parent `B` → parent `A`) — the resolve operation terminates and
returns `ResolveError.CyclicStyle` naming the offending identifier `a`.
Termination for every input is inherent: `resolveStyle` is a total
function, proved terminating by the shrinking set of unvisited table
keys.  Modelled from the spec (§4.3, §8): the engine source is not
provided. -/
theorem resolve_cycle_errors (tbl : StyleTable) (a : String)
    (rest : List String) (hnd : (a :: rest).Nodup)
    (hch : List.Chain (parentLinked tbl) a (rest ++ [a])) :
    resolveStyle tbl [] a = .error (.CyclicStyle a) := by
  cases rest with
  | nil =>
    rw [List.nil_append] at hch
    obtain ⟨hstep, -⟩ := List.chain_cons.mp hch
    obtain ⟨sd, hf, hp⟩ := parentLinked_elim hstep
    rw [resolveStyle_parent tbl [] a sd a (by simp) hf hp]
    rw [resolveStyle_visited tbl [a] a (by simp)]
  | cons x rest =>
    rw [List.cons_append] at hch
    obtain ⟨hstep, hch2⟩ := List.chain_cons.mp hch
    obtain ⟨sd, hf, hp⟩ := parentLinked_elim hstep
    rw [resolveStyle_parent tbl [] a sd x (by simp) hf hp]
    have hna : a ∉ x :: rest := (List.nodup_cons.mp hnd).1
    rw [resolveStyle_cycle_walk tbl a rest x [a] (by simp) ?_ ?_ hch2]
    · intro y hy
      simp only [List.mem_singleton, List.mem_cons, not_or]
      exact ⟨fun hya => hna (hya ▸ hy), by simp⟩
    · exact (List.nodup_cons.mp hnd).2

/-- A two-style table realising the spec §8 example cycle:
style `A`'s parent is `B` and style `B`'s parent is `A`. -/
def cycleTbl : StyleTable :=
  [("A", ⟨"A", "Style A", .paragraph, some "B", {}⟩),
   ("B", ⟨"B", "Style B", .paragraph, some "A", {}⟩)]

/-- Witness for C7 at the spec §8 example table. -/
theorem resolve_cycle_errors_witness :
    resolveStyle cycleTbl [] "A" = .error (.CyclicStyle "A") :=
  resolve_cycle_errors cycleTbl "A" ["B"] (by decide)
    (List.Chain.cons rfl (List.Chain.cons rfl List.Chain.nil))

/-- With an input argument present, argv has at least two entries, so
the usage guard does not fire. -/
theorem not_add_two_lt_two (n : Nat) : ¬ n + 1 + 1 < 2 := by omega

/-- Claim C1: whenever any error is raised while reading the input
file, converting it, or writing the output (including an error from the
conversion function), the script prints an error message and exits with
status 1. -/
theorem main_error_prints_and_exits_one (env : Env) (s inp : String)
    (rest : List String) (himp : env.importOk = true)
    (hargv : env.argv = s :: inp :: rest)
    (herr :
      (∃ e, env.readFile inp = .error e) ∨
      (∃ d e, env.readFile inp = .ok d ∧ env.convert_docx d = .error e) ∨
      (∃ d md out rest2 e, env.readFile inp = .ok d ∧
        env.convert_docx d = .ok md ∧ rest = out :: rest2 ∧ out ≠ "" ∧
        env.writeFile out md = .error e)) :
    (runMain env).exitCode = 1 ∧
      ∃ e, errorMsg e ∈ (runMain env).stdout := by
  rcases herr with ⟨e, hre⟩ | ⟨d, e, hrd, hce⟩ |
    ⟨d, md, out, rest2, e, hrd, hcv, hrest, hne, hwe⟩
  · refine ⟨?_, e, ?_⟩ <;> simp [runMain, himp, hargv, hre, not_add_two_lt_two]
  · refine ⟨?_, e, ?_⟩ <;> simp [runMain, himp, hargv, hrd, hce, not_add_two_lt_two]
  · subst hrest
    refine ⟨?_, e, ?_⟩ <;>
      simp [runMain, himp, hargv, hrd, hcv, hne, hwe, not_add_two_lt_two]

/-- Environment witnessing C1: the input file cannot be read. -/
def envC1 : Env where
  importOk := true
  argv := ["demo.py", "in.docx"]
  readFile := fun _ => .error "No such file or directory"
  convert_docx := fun _ => .ok ""
  writeFile := fun _ _ => .ok ()

/-- Witness for C1 at a concrete failing read. -/
theorem main_error_prints_and_exits_one_witness :
    (runMain envC1).exitCode = 1 ∧
      ∃ e, errorMsg e ∈ (runMain envC1).stdout :=
  main_error_prints_and_exits_one envC1 "demo.py" "in.docx" [] rfl rfl
    (Or.inl ⟨"No such file or directory", rfl⟩)

/-- Claim C2: when the conversion function fails, no output file is
attempted or written — even when an output path was supplied — and the
invocation ends in an error exit. -/
theorem main_convert_failure_writes_nothing (env : Env) (s inp : String)
    (rest : List String) (d : List Nat) (e : String)
    (himp : env.importOk = true) (hargv : env.argv = s :: inp :: rest)
    (hrd : env.readFile inp = .ok d)
    (hce : env.convert_docx d = .error e) :
    (runMain env).written = [] ∧ (runMain env).writeCalls = [] ∧
      (runMain env).exitCode = 1 := by
  refine ⟨?_, ?_, ?_⟩ <;> simp [runMain, himp, hargv, hrd, hce, not_add_two_lt_two]

/-- Environment witnessing C2: an output path is supplied but the
conversion fails. -/
def envC2 : Env where
  importOk := true
  argv := ["demo.py", "in.docx", "out.md"]
  readFile := fun _ => .ok [80, 75]
  convert_docx := fun _ => .error "not a DOCX container"
  writeFile := fun _ _ => .ok ()

/-- Witness for C2 at a concrete failing conversion. -/
theorem main_convert_failure_writes_nothing_witness :
    (runMain envC2).written = [] ∧ (runMain envC2).writeCalls = [] ∧
      (runMain envC2).exitCode = 1 :=
  main_convert_failure_writes_nothing envC2 "demo.py" "in.docx"
    ["out.md"] [80, 75] "not a DOCX container" rfl rfl rfl rfl

/-- Claim C3: the script reads the input file named by the first
argument and passes exactly the bytes read — and nothing else — as the
sole argument of the sole call to `convert_docx`. -/
theorem main_passes_file_bytes_to_convert (env : Env) (s inp : String)
    (rest : List String) (d : List Nat)
    (himp : env.importOk = true) (hargv : env.argv = s :: inp :: rest)
    (hrd : env.readFile inp = .ok d) :
    (runMain env).readCalls = [inp] ∧
      (runMain env).convertCalls = [d] := by
  cases hc : env.convert_docx d with
  | error e =>
    refine ⟨?_, ?_⟩ <;> simp [runMain, himp, hargv, hrd, hc, not_add_two_lt_two]
  | ok md =>
    cases rest with
    | nil =>
      refine ⟨?_, ?_⟩ <;> simp [runMain, himp, hargv, hrd, hc, not_add_two_lt_two]
    | cons out rest2 =>
      by_cases ho : out = ""
      · refine ⟨?_, ?_⟩ <;> simp [runMain, himp, hargv, hrd, hc, ho, not_add_two_lt_two]
      · cases hw : env.writeFile out md with
        | error e =>
          refine ⟨?_, ?_⟩ <;>
            simp [runMain, himp, hargv, hrd, hc, ho, hw, not_add_two_lt_two]
        | ok u =>
          refine ⟨?_, ?_⟩ <;>
            simp [runMain, himp, hargv, hrd, hc, ho, hw, not_add_two_lt_two]

/-- Environment witnessing C3. -/
def envC3 : Env where
  importOk := true
  argv := ["demo.py", "in.docx"]
  readFile := fun _ => .ok [80, 75, 3, 4]
  convert_docx := fun _ => .ok "# Title"
  writeFile := fun _ _ => .ok ()

/-- Witness for C3 at a concrete successful read. -/
theorem main_passes_file_bytes_to_convert_witness :
    (runMain envC3).readCalls = ["in.docx"] ∧
      (runMain envC3).convertCalls = [[80, 75, 3, 4]] :=
  main_passes_file_bytes_to_convert envC3 "demo.py" "in.docx" []
    [80, 75, 3, 4] rfl rfl rfl

/-- Claim C10: every invocation exits with status 0 or status 1; no
other exit code is possible. -/
theorem main_exit_code_zero_or_one (env : Env) :
    (runMain env).exitCode = 0 ∨ (runMain env).exitCode = 1 := by
  obtain ⟨imp, argv, rf, cv, wf⟩ := env
  cases imp with
  | false => simp [runMain]
  | true =>
    cases argv with
    | nil => simp [runMain]
    | cons s rest =>
      cases rest with
      | nil => simp [runMain]
      | cons inp rest2 =>
        cases h3 : rf inp with
        | error e => simp [runMain, h3, not_add_two_lt_two]
        | ok d =>
          cases h4 : cv d with
          | error e => simp [runMain, h3, h4, not_add_two_lt_two]
          | ok md =>
            cases rest2 with
            | nil => simp [runMain, h3, h4, not_add_two_lt_two]
            | cons out rest3 =>
              by_cases h6 : out = ""
              · simp [runMain, h3, h4, h6, not_add_two_lt_two]
              · cases h7 : wf out md with
                | error e =>
                  simp [runMain, h3, h4, h6, h7, not_add_two_lt_two]
                | ok u =>
                  simp [runMain, h3, h4, h6, h7, not_add_two_lt_two]

/-- Environment refuting C4 as stated: the second command-line argument
is the empty string and conversion succeeds. -/
def envC4 : Env where
  importOk := true
  argv := ["demo.py", "in.docx", ""]
  readFile := fun _ => .ok [80, 75]
  convert_docx := fun _ => .ok "# Title"
  writeFile := fun _ _ => .ok ()

/-- Counterexample to C4 as stated: with the empty string supplied as
the output-path argument and a successful conversion, the script writes
no file at all — Python's `if output_file:` treats `""` as falsy and
prints to stdout instead. -/
theorem main_empty_output_path_not_written :
    (runMain envC4).writeCalls = [] ∧ (runMain envC4).written = [] ∧
      (runMain envC4).stdout = [readingMsg "in.docx", "# Title"] := by
  decide

/-- Claim C4 (amended): for every invocation in which a non-empty
second command-line argument (an output path) is supplied and both the
conversion and the write to that path succeed, the script writes the
string returned by the conversion function to that path, so the written
file content equals the returned string exactly. -/
theorem main_writes_converted_output (env : Env) (s inp out : String)
    (rest : List String) (d : List Nat) (md : String)
    (himp : env.importOk = true)
    (hargv : env.argv = s :: inp :: out :: rest)
    (hne : out ≠ "")
    (hrd : env.readFile inp = .ok d)
    (hcv : env.convert_docx d = .ok md)
    (hw : env.writeFile out md = .ok ()) :
    (runMain env).writeCalls = [(out, md)] ∧
      (runMain env).written = [(out, md)] ∧
      (runMain env).exitCode = 0 := by
  refine ⟨?_, ?_, ?_⟩ <;>
    simp [runMain, himp, hargv, hne, hrd, hcv, hw, not_add_two_lt_two]

/-- Environment witnessing the amended C4. -/
def envC4ok : Env where
  importOk := true
  argv := ["demo.py", "in.docx", "out.md"]
  readFile := fun _ => .ok [80, 75]
  convert_docx := fun _ => .ok "# Title"
  writeFile := fun _ _ => .ok ()

/-- Witness for the amended C4 at a concrete successful run. -/
theorem main_writes_converted_output_witness :
    (runMain envC4ok).writeCalls = [("out.md", "# Title")] ∧
      (runMain envC4ok).written = [("out.md", "# Title")] ∧
      (runMain envC4ok).exitCode = 0 :=
  main_writes_converted_output envC4ok "demo.py" "in.docx" "out.md" []
    [80, 75] "# Title" rfl rfl (by decide) rfl rfl rfl

/-- Environment refuting C5 as stated: no output path, successful
conversion. -/
def envC5 : Env where
  importOk := true
  argv := ["demo.py", "in.docx"]
  readFile := fun _ => .ok [80, 75]
  convert_docx := fun _ => .ok "# Title"
  writeFile := fun _ _ => .ok ()

/-- Counterexample to C5 as stated: on a successful stdout run the
script's stdout is not the returned text alone — the progress line
printed before the file is read is also on stdout. -/
theorem main_stdout_not_only_result :
    (runMain envC5).exitCode = 0 ∧
      (runMain envC5).stdout ≠ ["# Title"] := by
  decide

/-- Claim C5 (amended): for every invocation with no output path and a
successful conversion, the script's stdout consists of the progress
line announcing the read followed by exactly the text returned by the
conversion function, and nothing else. -/
theorem main_prints_result_after_progress_line (env : Env)
    (s inp : String) (d : List Nat) (md : String)
    (himp : env.importOk = true) (hargv : env.argv = [s, inp])
    (hrd : env.readFile inp = .ok d)
    (hcv : env.convert_docx d = .ok md) :
    (runMain env).stdout = [readingMsg inp, md] ∧
      (runMain env).exitCode = 0 := by
  refine ⟨?_, ?_⟩ <;> simp [runMain, himp, hargv, hrd, hcv]

/-- Witness for the amended C5 at a concrete successful run. -/
theorem main_prints_result_after_progress_line_witness :
    (runMain envC5).stdout = [readingMsg "in.docx", "# Title"] ∧
      (runMain envC5).exitCode = 0 :=
  main_prints_result_after_progress_line envC5 "demo.py" "in.docx"
    [80, 75] "# Title" rfl rfl rfl rfl

/-- Claim C6: the script is deterministic.  Two invocations whose
environments agree on the import result, the arguments, and the
pointwise behaviour of every external effect (file reads, the
conversion function, file writes) produce identical outcomes: the same
stdout, the same written files, and the same exit status.  In
particular, converting the same malformed byte sequence twice reports
the same error both times — the embedding of the script is a pure
function of its environment, with no hidden state between calls. -/
theorem main_deterministic (e1 e2 : Env)
    (h1 : e1.importOk = e2.importOk) (h2 : e1.argv = e2.argv)
    (h3 : ∀ p, e1.readFile p = e2.readFile p)
    (h4 : ∀ d, e1.convert_docx d = e2.convert_docx d)
    (h5 : ∀ p c, e1.writeFile p c = e2.writeFile p c) :
    runMain e1 = runMain e2 := by
  obtain ⟨i1, a1, r1, c1, w1⟩ := e1
  obtain ⟨i2, a2, r2, c2, w2⟩ := e2
  change i1 = i2 at h1
  change a1 = a2 at h2
  have hr : r1 = r2 := funext fun p => h3 p
  have hc : c1 = c2 := funext fun d => h4 d
  have hw : w1 = w2 := funext fun p => funext fun c => h5 p c
  subst h1; subst h2; subst hr; subst hc; subst hw
  rfl

/-- First of two pointwise-equal environments for the C6 witness: a
malformed input whose conversion fails with a structural-mismatch
error. -/
def envC6a : Env where
  importOk := true
  argv := ["demo.py", "bad.docx"]
  readFile := fun _ => .ok [0]
  convert_docx := fun _ => .error "ParseError: StructuralMismatch"
  writeFile := fun _ _ => .ok ()

/-- Second environment for the C6 witness, behaving identically. -/
def envC6b : Env where
  importOk := true
  argv := ["demo.py", "bad.docx"]
  readFile := fun _ => .ok [0]
  convert_docx := fun _ => .error "ParseError: StructuralMismatch"
  writeFile := fun _ _ => .ok ()

/-- Witness for C6: the two runs on the same malformed bytes coincide. -/
theorem main_deterministic_witness : runMain envC6a = runMain envC6b :=
  main_deterministic envC6a envC6b rfl rfl (fun _ => rfl) (fun _ => rfl)
    (fun _ _ => rfl)

/-- Claim C8: with fewer than one command-line argument (no input
path), the script prints the usage message and exits with status 1,
without reading any file and without calling the conversion
function. -/
theorem main_usage_on_missing_args (env : Env)
    (himp : env.importOk = true) (hlen : env.argv.length < 2) :
    (runMain env).stdout = [usageMsg (env.argv.headD "")] ∧
      (runMain env).exitCode = 1 ∧ (runMain env).readCalls = [] ∧
      (runMain env).convertCalls = [] := by
  refine ⟨?_, ?_, ?_, ?_⟩ <;> simp [runMain, himp, hlen]

/-- Environment witnessing C8: only the script name in argv. -/
def envC8 : Env where
  importOk := true
  argv := ["demo.py"]
  readFile := fun _ => .ok []
  convert_docx := fun _ => .ok ""
  writeFile := fun _ _ => .ok ()

/-- Witness for C8 at an invocation with no input path. -/
theorem main_usage_on_missing_args_witness :
    (runMain envC8).stdout = [usageMsg (envC8.argv.headD "")] ∧
      (runMain envC8).exitCode = 1 ∧ (runMain envC8).readCalls = [] ∧
      (runMain envC8).convertCalls = [] :=
  main_usage_on_missing_args envC8 rfl (by decide)

/-- Claim C9: when the `dm2xcod` module cannot be imported, the script
prints the installation hint and exits with status 1.  The outcome is a
constant independent of the arguments and of every file-system effect:
no argument is consulted, no file is read or written, and the
conversion function is never called. -/
theorem main_import_failure_exits_early (env : Env)
    (himp : env.importOk = false) :
    runMain env = ⟨[notInstalledMsg], [], [], [], [], 1⟩ := by
  simp [runMain, himp]

/-- Environment witnessing C9: the import fails; every other effect
would be observable if it were (wrongly) reached. -/
def envC9 : Env where
  importOk := false
  argv := []
  readFile := fun _ => .error "unreachable"
  convert_docx := fun _ => .error "unreachable"
  writeFile := fun _ _ => .error "unreachable"

/-- Witness for C9 at a concrete failing import. -/
theorem main_import_failure_exits_early_witness :
    runMain envC9 = ⟨[notInstalledMsg], [], [], [], [], 1⟩ :=
  main_import_failure_exits_early envC9 rfl

end Dm2xcod
